import Mathlib

/-!
Shallow embedding of the SoloSafe browser client (repository
`Tobbie123github/SoloSafe`), covering the session store, the
authenticated-request gateway, the OAuth callback flow, trip selection,
and the location-dependent operations (check-in / SOS).

The repository ships two variants of the script:
* `src/unnamed/part_000` — bearer-token variant (suffix `V1` below);
* `src/script.js`        — cookie-session variant (suffix `V2` below).

JavaScript values read from / written to `localStorage` are modelled by
`JVal` (JSON-like values plus JavaScript's `undefined`).
Objects are association lists of fields; property lookup is last-binding
wins (`getLast`), mirroring JavaScript object-literal / spread semantics
where a later duplicate key overrides an earlier one.  Network responses
are supplied as oracle arguments (`Except Unit Response`, `.error` being
a transport failure that `fetch` would surface as a thrown error).
-/

namespace SoloSafe

/-- JavaScript values relevant to the client: JSON values plus
`undefined` (the result of a missing property access). -/
inductive JVal where
  | undefined
  | null
  | bool (b : Bool)
  | num (n : Int)
  | str (s : String)
  | arr (elems : List JVal)
  | obj (fields : List (String × JVal))
deriving Repr

/-- Last-binding-wins field lookup, matching JavaScript object semantics:
in `{a: 1, a: 2}` and in spreads the later binding overrides. Missing
keys yield `undefined`. -/
def getLast (fs : List (String × JVal)) (k : String) : JVal :=
  fs.foldl (fun acc p => if p.1 = k then p.2 else acc) .undefined

/-- JavaScript truthiness of a value. -/
def JVal.truthy : JVal → Bool
  | .undefined => false
  | .null => false
  | .bool b => b
  | .num n => n != 0
  | .str s => s != ""
  | .arr _ => true
  | .obj _ => true

/-- Property access `v.k`: field lookup on objects, `undefined` on
non-objects (no key accessed by this client exists on primitives or
arrays). -/
def JVal.getField : JVal → String → JVal
  | .obj fs, k => getLast fs k
  | _, _ => .undefined

/-- The own-enumerable fields contributed by `{...v}` (object spread):
an object's fields, index/character fields for arrays and strings,
nothing for primitives. -/
def spreadFields : JVal → List (String × JVal)
  | .obj fs => fs
  | .arr xs => xs.enum.map (fun p => (toString p.1, p.2))
  | .str s => s.toList.enum.map (fun p => (toString p.1, .str (String.mk [p.2])))
  | _ => []

/-- A raw string held in a `localStorage` slot, classified by how the
client's checks see it: the literal strings `"undefined"` and `"null"`
(compared by string equality before any parse), a string that
`JSON.parse` decodes to `v`, or an unparseable string (`JSON.parse`
throws). -/
inductive StoredStr where
  | litUndefined
  | litNull
  | json (v : JVal)
  | garbage
deriving Repr

/-- The `localStorage` keys this client uses.  `solosafe_token` and
`solosafe_dark_mode` are read/written as plain strings, the others hold
JSON-encoded records. -/
structure Store where
  user : Option StoredStr
  token : Option String
  trips : Option StoredStr
  tempSignup : Option StoredStr
  darkMode : Option String
deriving Repr

/-- `getAuthToken` (part_000, lines 59–76): prefer the `token` field of
a parsed `solosafe_user` record when truthy; on a missing entry, the
literals `"undefined"`/`"null"`, a parse error, or a falsy token field,
fall back to the raw `solosafe_token` string (`googleToken || null`). -/
def getAuthToken (s : Store) : Option JVal :=
  let fallback : Option JVal :=
    match s.token with
    | some g => if g = "" then none else some (.str g)
    | none => none
  match s.user with
  | some (.json data) =>
    let t := data.getField "token"
    if t.truthy then some t else fallback
  | _ => fallback

/-- `getCurrentUser` (part_000, lines 82–111).  Returns the parsed and
normalized session record together with the resulting store: a missing
entry or the literals `"undefined"`/`"null"` give `none` with the store
untouched; an unparseable entry is removed from storage and gives
`none`; a parsed record with a truthy `user` field is flattened to
`{...data.user, token: data.token}`, otherwise the record is returned
as is.  The function is total: no input makes it throw to the caller. -/
def getCurrentUserV1 (s : Store) : Option JVal × Store :=
  match s.user with
  | none => (none, s)
  | some .litUndefined => (none, s)
  | some .litNull => (none, s)
  | some .garbage => (none, { s with user := none })
  | some (.json data) =>
    let u := data.getField "user"
    if u.truthy then
      (some (.obj (spreadFields u ++ [("token", data.getField "token")])), s)
    else
      (some data, s)

/-- `getCurrentUser` (script.js, lines 127–141): same guards, but the
parsed record is returned without any flattening. -/
def getCurrentUserV2 (s : Store) : Option JVal × Store :=
  match s.user with
  | none => (none, s)
  | some .litUndefined => (none, s)
  | some .litNull => (none, s)
  | some .garbage => (none, { s with user := none })
  | some (.json data) => (some data, s)

/-- `updateUserProfile` (part_000, lines 205–213): load the current
user; if none, return `null` without writing; otherwise persist
`{...user, ...updates}` and return it. -/
def updateUserProfileV1 (s : Store) (updates : List (String × JVal)) :
    Option JVal × Store :=
  match getCurrentUserV1 s with
  | (none, s1) => (none, s1)
  | (some u, s1) =>
    let merged := JVal.obj (spreadFields u ++ updates)
    (some merged, { s1 with user := some (.json merged) })

/-- `updateUserProfile` (script.js, lines 143–151): identical shape,
built on the non-flattening loader. -/
def updateUserProfileV2 (s : Store) (updates : List (String × JVal)) :
    Option JVal × Store :=
  match getCurrentUserV2 s with
  | (none, s1) => (none, s1)
  | (some u, s1) =>
    let merged := JVal.obj (spreadFields u ++ updates)
    (some merged, { s1 with user := some (.json merged) })

/-- `logout` (part_000, lines 229–252): fire a best-effort backend call
when a token is present, remove `solosafe_user`, `solosafe_token`,
`solosafe_trips` and `solosafe_temp_signup`, and schedule a redirect to
the index view.  Result: (store after removals, scheduled redirects,
whether the backend logout call was issued). -/
def logoutV1 (s : Store) : Store × List String × Bool :=
  ({ s with user := none, token := none, trips := none, tempSignup := none },
   ["index.html"],
   (getAuthToken s).isSome)

/-- `logout` (script.js, lines 164–180): always fires the backend call
(cookie credentials), removes `solosafe_user`, `solosafe_trips` and
`solosafe_temp_signup`, and schedules a redirect to the index view. -/
def logoutV2 (s : Store) : Store × List String × Bool :=
  ({ s with user := none, trips := none, tempSignup := none },
   ["index.html"],
   true)

/-- An HTTP response as the client observes it: numeric status and the
JSON body `response.json()` would yield. -/
structure Response where
  status : Nat
  body : JVal
deriving Repr

/-- `response.ok`: status in the 2xx range. -/
def Response.isOk (r : Response) : Bool :=
  decide (200 ≤ r.status) && decide (r.status < 300)

/-- Observable outcome of one `authenticatedFetch` call: the value
returned to the caller (`none` is the abort sentinel `null`), the
resulting storage, the redirects scheduled via `setTimeout`, the toasts
shown, and whether a network request was issued at all. -/
structure FetchResult where
  result : Option Response
  store : Store
  redirects : List String
  toasts : List String
  sent : Bool
deriving Repr

/-- `authenticatedFetch` (part_000, lines 262–303).  With no retrievable
token: warn, schedule one redirect to login, return `null`, and issue no
request.  Otherwise issue the request; a transport failure is rethrown
(`Except.error`); a 401 purges `solosafe_user` and `solosafe_token`,
warns, schedules one redirect to login, and returns `null`; any other
response is passed through. -/
def authenticatedFetchV1 (s : Store) (net : Except Unit Response) :
    Except Unit FetchResult :=
  match getAuthToken s with
  | none =>
    .ok ⟨none, s, ["login.html"], ["Please login first"], false⟩
  | some _ =>
    match net with
    | .error e => .error e
    | .ok resp =>
      if resp.status = 401 then
        .ok ⟨none, { s with user := none, token := none }, ["login.html"],
             ["Session expired. Please login again."], true⟩
      else
        .ok ⟨some resp, s, [], [], true⟩

/-- `authenticatedFetch` (script.js, lines 91–121): no credential
precondition (ambient cookie session); the request is always issued.  A
401 purges `solosafe_user` only, warns, schedules one redirect to
login, and returns `null`; other responses pass through; transport
failures are rethrown. -/
def authenticatedFetchV2 (s : Store) (net : Except Unit Response) :
    Except Unit FetchResult :=
  match net with
  | .error e => .error e
  | .ok resp =>
    if resp.status = 401 then
      .ok ⟨none, { s with user := none }, ["login.html"],
           ["Session expired. Please login again."], true⟩
    else
      .ok ⟨some resp, s, [], [], true⟩

/-- `fetchUserProfile` (part_000, lines 116–151): throws when no token
is retrievable; otherwise fetches the profile with the bearer token; on
a non-ok response throws; on success stores
`{...userData, token: token}` under `solosafe_user` and returns it. -/
def fetchUserProfile (s : Store) (net : Except Unit Response) :
    Except Unit (JVal × Store) :=
  match getAuthToken s with
  | none => .error ()
  | some tok =>
    match net with
    | .error e => .error e
    | .ok resp =>
      if resp.isOk then
        let userToStore := JVal.obj (spreadFields resp.body ++ [("token", tok)])
        .ok (userToStore, { s with user := some (.json userToStore) })
      else
        .error ()

/-- The browser location as the script observes it: path (origin +
pathname) and the query string as ordered key/value pairs. -/
structure Url where
  path : String
  query : List (String × String)
deriving Repr

/-- `URLSearchParams.get`: the first value bound to the key, or null. -/
def Url.getParam (u : Url) (k : String) : Option String :=
  (u.query.find? (fun p => p.1 = k)).map (fun p => p.2)

/-- Outcome of `handleGoogleCallback`: its boolean return value, the
resulting storage, the address-bar URL (changed only via
`history.replaceState`, never by a reload), and any scheduled
redirects. -/
structure CallbackResult where
  returned : Bool
  store : Store
  url : Url
  redirects : List String
deriving Repr

/-- `handleGoogleCallback` (part_000, lines 157–200).  No (or empty)
`token` query parameter: return `false`, nothing changes.  Otherwise
store the parameter under `solosafe_token`, exchange it via
`fetchUserProfile`; on success delete `solosafe_token`, strip the query
from the visible URL without reloading, and return `true`; on failure
delete `solosafe_token` and `solosafe_user` and schedule a (delayed)
redirect to login. -/
def handleGoogleCallback (u : Url) (s : Store) (net : Except Unit Response) :
    CallbackResult :=
  match u.getParam "token" with
  | none => ⟨false, s, u, []⟩
  | some t =>
    if t = "" then ⟨false, s, u, []⟩
    else
      let s1 := { s with token := some t }
      match fetchUserProfile s1 net with
      | .ok (_, s2) =>
        ⟨true, { s2 with token := none }, ⟨u.path, []⟩, []⟩
      | .error _ =>
        ⟨false, { s1 with token := none, user := none }, u, ["login.html"]⟩

/-- A trip as the client reads it from the backend: start and end
instants (epoch milliseconds, the value `new Date(...)` compares by)
and a status string. -/
structure Trip where
  startDate : Int
  endDate : Int
  status : String
deriving Repr, DecidableEq

/-- The predicate of part_000's `getCurrentTrip` filter: started, not
ended, not completed. -/
def tripActiveAt (now : Int) (t : Trip) : Bool :=
  decide (t.startDate ≤ now) && decide (now ≤ t.endDate) &&
    decide (t.status ≠ "Completed")

/-- `getCurrentTrip` (part_000, lines 363–378), selection step: over the
fetched trip set, `trips.find(...)` returns the first trip whose
`[startDate, endDate]` interval contains `now` and whose status is not
`'Completed'`, else `null`.  (The fetch itself is abstracted into the
`trips` argument: the claim quantifies over the fetched set.) -/
def getCurrentTripV1 (now : Int) (trips : List Trip) : Option Trip :=
  trips.find? (tripActiveAt now)

/-- `getCurrentTrip` (script.js, lines 210–228), selection step:
`data.trips.find(t => t.status === 'active')` — the first trip whose
status is exactly `'active'`, dates ignored. -/
def getCurrentTripV2 (trips : List Trip) : Option Trip :=
  trips.find? (fun t => t.status = "active")

/-- A device location as attached to check-in/SOS bodies. Coordinates
are modelled as integers; the claims only depend on presence vs the
`null` that replaces a failed acquisition. -/
structure Loc where
  lat : Int
  lng : Int
deriving Repr

/-- The `location` field of a check-in/SOS body: `{lat, lng}` when
acquisition succeeded, JSON `null` when it failed. -/
def locBody : Option Loc → JVal
  | some l => .obj [("lat", .num l.lat), ("lng", .num l.lng)]
  | none => .null

/-- Observable outcome of `checkIn`/`triggerSOS`: the body the request
was issued with (`none` when no request went out), whether the success
toast/notification path was reached, the resulting storage, and
scheduled redirects. -/
structure OpResult where
  sentBody : Option JVal
  success : Bool
  store : Store
  redirects : List String
deriving Repr

/-- `checkIn` (part_000, lines 441–473).  `getCurrentLocation()` is an
oracle; its failure is caught (`.catch(() => null)`) and replaced by
`null`.  The request body is `{location, timestamp}`; it goes through
`authenticatedFetchV1`.  A transport failure or a non-ok response lands
in the outer catch (failure toast); an ok response reaches the success
toast and notification. -/
def checkIn (s : Store) (locNet : Except Unit Loc) (ts : String)
    (net : Except Unit Response) : OpResult :=
  let location := locNet.toOption
  let body := JVal.obj [("location", locBody location), ("timestamp", .str ts)]
  match authenticatedFetchV1 s net with
  | .error _ => ⟨if (getAuthToken s).isSome then some body else none, false, s, []⟩
  | .ok fr =>
    match fr.result with
    | none => ⟨if fr.sent then some body else none, false, fr.store, fr.redirects⟩
    | some resp =>
      if resp.isOk then ⟨some body, true, fr.store, fr.redirects⟩
      else ⟨some body, false, fr.store, fr.redirects⟩

/-- `triggerSOS` (part_000, lines 478–507): same pattern as `checkIn`
with body `{tripId, location, timestamp}` posted to the SOS endpoint. -/
def triggerSOS (s : Store) (tripId : String) (locNet : Except Unit Loc)
    (ts : String) (net : Except Unit Response) : OpResult :=
  let location := locNet.toOption
  let body := JVal.obj [("tripId", .str tripId), ("location", locBody location),
                        ("timestamp", .str ts)]
  match authenticatedFetchV1 s net with
  | .error _ => ⟨if (getAuthToken s).isSome then some body else none, false, s, []⟩
  | .ok fr =>
    match fr.result with
    | none => ⟨if fr.sent then some body else none, false, fr.store, fr.redirects⟩
    | some resp =>
      if resp.isOk then ⟨some body, true, fr.store, fr.redirects⟩
      else ⟨some body, false, fr.store, fr.redirects⟩

theorem getLast_snoc_ne (fs : List (String × JVal)) (k k' : String) (v : JVal)
    (h : k' ≠ k) : getLast (fs ++ [(k', v)]) k = getLast fs k := by
  simp [getLast, List.foldl_append, h]

theorem getLast_snoc_eq (fs : List (String × JVal)) (k : String) (v : JVal) :
    getLast (fs ++ [(k, v)]) k = v := by
  simp [getLast, List.foldl_append]

/-- C1 counterexample: script.js's `getCurrentTrip` selects purely by
`status === 'active'`, so over the set holding one trip whose interval
`[-10, -5]` lies entirely before now (= 0) but whose status is
`"active"`, it returns that trip even though its interval does not
contain the current time — refuting the claim as stated for that
variant (which the claim cites). -/
theorem getCurrentTrip_status_only_cex :
    getCurrentTripV2 [⟨-10, -5, "active"⟩] = some ⟨-10, -5, "active"⟩ ∧
    tripActiveAt 0 ⟨-10, -5, "active"⟩ = false := by
  constructor
  · rfl
  · decide

/-- C1 (amended): part_000's `getCurrentTrip` returns a trip of the
fetched set satisfying "interval contains now and status ≠ 'Completed'"
and the no-trip sentinel exactly when no trip satisfies it; script.js's
variant selects by `status = "active"` alone; over the example set
`[{start: -1d, end: +1d, status: "active"}, {start: -10d, end: -5d,
status: "Completed"}]` (day = 86400000 ms, now = 0) both return the
first trip only. -/
theorem getCurrentTrip_spec (now : Int) (trips : List Trip) :
    (∀ t, getCurrentTripV1 now trips = some t →
      t ∈ trips ∧ tripActiveAt now t = true) ∧
    (getCurrentTripV1 now trips = none ↔
      ∀ t ∈ trips, tripActiveAt now t = false) ∧
    (∀ t, getCurrentTripV2 trips = some t → t ∈ trips ∧ t.status = "active") ∧
    (getCurrentTripV2 trips = none ↔ ∀ t ∈ trips, t.status ≠ "active") ∧
    getCurrentTripV1 0 [⟨-86400000, 86400000, "active"⟩,
      ⟨-864000000, -432000000, "Completed"⟩] = some ⟨-86400000, 86400000, "active"⟩ ∧
    getCurrentTripV2 [⟨-86400000, 86400000, "active"⟩,
      ⟨-864000000, -432000000, "Completed"⟩] = some ⟨-86400000, 86400000, "active"⟩ := by
  refine ⟨?_, ?_, ?_, ?_, ?_, ?_⟩
  · intro t h
    exact ⟨List.mem_of_find?_eq_some h, List.find?_some h⟩
  · simp [getCurrentTripV1, List.find?_eq_none]
  · intro t h
    refine ⟨List.mem_of_find?_eq_some h, ?_⟩
    have := List.find?_some h
    simpa using this
  · simp [getCurrentTripV2, List.find?_eq_none]
  · decide
  · rfl

/-- C1 witness: instantiates the two conditional parts of
`getCurrentTrip_spec` on the example trip set. -/
theorem getCurrentTrip_spec_witness :
    ((⟨-86400000, 86400000, "active"⟩ : Trip) ∈
        [(⟨-86400000, 86400000, "active"⟩ : Trip),
         ⟨-864000000, -432000000, "Completed"⟩] ∧
      tripActiveAt 0 ⟨-86400000, 86400000, "active"⟩ = true) ∧
    ((⟨-86400000, 86400000, "active"⟩ : Trip) ∈
        [(⟨-86400000, 86400000, "active"⟩ : Trip),
         ⟨-864000000, -432000000, "Completed"⟩] ∧
      Trip.status ⟨-86400000, 86400000, "active"⟩ = "active") :=
  ⟨(getCurrentTrip_spec 0 [⟨-86400000, 86400000, "active"⟩,
      ⟨-864000000, -432000000, "Completed"⟩]).1 _ (by decide),
   (getCurrentTrip_spec 0 [⟨-86400000, 86400000, "active"⟩,
      ⟨-864000000, -432000000, "Completed"⟩]).2.2.1 _ rfl⟩

/-- C2: on a 401 response, both gateway variants purge the persisted
session state (`solosafe_user`, and in the token variant also
`solosafe_token`), schedule exactly one redirect to the login view, and
return the abort sentinel `null` instead of the response.  The token
variant only reaches the response handler when a credential was
retrievable (otherwise no request is sent). -/
theorem authenticatedFetch_401 (s s2 : Store) (resp : Response)
    (h : (getAuthToken s).isSome = true) (h401 : resp.status = 401) :
    authenticatedFetchV1 s (.ok resp) =
      .ok ⟨none, { s with user := none, token := none }, ["login.html"],
           ["Session expired. Please login again."], true⟩ ∧
    authenticatedFetchV2 s2 (.ok resp) =
      .ok ⟨none, { s2 with user := none }, ["login.html"],
           ["Session expired. Please login again."], true⟩ := by
  constructor
  · match hg : getAuthToken s with
    | none => rw [hg] at h; simp at h
    | some tok => simp [authenticatedFetchV1, hg, h401]
  · simp [authenticatedFetchV2, h401]

/-- C2 witness: concrete 401 round trip through both variants. -/
theorem authenticatedFetch_401_witness :
    authenticatedFetchV1 ⟨none, some "g", none, none, none⟩ (.ok ⟨401, .null⟩) =
      .ok ⟨none, ⟨none, none, none, none, none⟩, ["login.html"],
           ["Session expired. Please login again."], true⟩ ∧
    authenticatedFetchV2 ⟨none, none, none, none, some "true"⟩ (.ok ⟨401, .null⟩) =
      .ok ⟨none, ⟨none, none, none, none, some "true"⟩, ["login.html"],
           ["Session expired. Please login again."], true⟩ :=
  authenticatedFetch_401 ⟨none, some "g", none, none, none⟩
    ⟨none, none, none, none, some "true"⟩ ⟨401, .null⟩ (by decide) rfl

/-- C3 counterexample: the cookie variant (script.js, cited by the
claim) performs no storage-credential precondition check: with a
completely empty storage it still issues the network request
(`sent = true`) and passes the response through — refuting "never
issues a network request and returns the abort sentinel" as a statement
about every Gateway call with no credential in storage. -/
theorem authenticatedFetch_noCred_cex :
    authenticatedFetchV2 ⟨none, none, none, none, none⟩ (.ok ⟨200, .null⟩) =
      .ok ⟨some ⟨200, .null⟩, ⟨none, none, none, none, none⟩, [], [], true⟩ := rfl

/-- C3 (amended): in the token variant (part_000), a Gateway call made
while no credential is retrievable from storage issues no network
request, warns the user, schedules a redirect to the login view, and
returns the abort sentinel `null`; the cookie variant (script.js)
performs no storage-credential check and always issues the request,
relying on the ambient cookie session. -/
theorem authenticatedFetch_noCred (s : Store) (net : Except Unit Response)
    (h : getAuthToken s = none) :
    authenticatedFetchV1 s net =
      .ok ⟨none, s, ["login.html"], ["Please login first"], false⟩ := by
  simp [authenticatedFetchV1, h]

/-- C3 witness: empty storage aborts the call without sending. -/
theorem authenticatedFetch_noCred_witness :
    authenticatedFetchV1 ⟨none, none, none, none, none⟩ (.ok ⟨200, .null⟩) =
      .ok ⟨none, ⟨none, none, none, none, none⟩, ["login.html"],
           ["Please login first"], false⟩ :=
  authenticatedFetch_noCred ⟨none, none, none, none, none⟩ (.ok ⟨200, .null⟩) rfl

/-- C4: loading a session record stored in the nested shape
`{token: t, user: {...u}}` and loading the equivalent already-flattened
shape `{...u, token: t}` yield the identical normalized object
`{...u, token: t}`, and loading the flat record is a no-op: it returns
the stored record itself and leaves storage untouched.  The flat shape
is characterized by not carrying a truthy `user` field (that is what
"already flattened" means). -/
theorem getCurrentUser_normalization (base : Store) (u : List (String × JVal))
    (t : JVal) (h : (getLast u "user").truthy = false) :
    getCurrentUserV1
        { base with user := some (.json (.obj [("token", t), ("user", .obj u)])) } =
      (some (.obj (u ++ [("token", t)])),
       { base with user := some (.json (.obj [("token", t), ("user", .obj u)])) }) ∧
    getCurrentUserV1 { base with user := some (.json (.obj (u ++ [("token", t)]))) } =
      (some (.obj (u ++ [("token", t)])),
       { base with user := some (.json (.obj (u ++ [("token", t)]))) }) := by
  constructor
  · simp [getCurrentUserV1, JVal.getField, getLast, JVal.truthy, spreadFields]
  · have hu : getLast (u ++ [("token", t)]) "user" = getLast u "user" :=
      getLast_snoc_ne u "user" "token" t (by decide)
    simp [getCurrentUserV1, JVal.getField, hu, h]

/-- C4 witness: a concrete profile `{name: "A"}` with credential `"tk"`
in both shapes. -/
theorem getCurrentUser_normalization_witness :
    getCurrentUserV1 ⟨some (.json (.obj [("token", .str "tk"),
        ("user", .obj [("name", .str "A")])])), none, none, none, none⟩ =
      (some (.obj [("name", .str "A"), ("token", .str "tk")]),
       ⟨some (.json (.obj [("token", .str "tk"),
          ("user", .obj [("name", .str "A")])])), none, none, none, none⟩) ∧
    getCurrentUserV1 ⟨some (.json (.obj [("name", .str "A"),
        ("token", .str "tk")])), none, none, none, none⟩ =
      (some (.obj [("name", .str "A"), ("token", .str "tk")]),
       ⟨some (.json (.obj [("name", .str "A"), ("token", .str "tk")])),
        none, none, none, none⟩) :=
  getCurrentUser_normalization ⟨none, none, none, none, none⟩
    [("name", .str "A")] (.str "tk") (by decide)

/-- C5: starting from a flat stored session `f`, applying
`updateUserProfile {kx: vx}` and then `updateUserProfile {ky: vy}`
(profile partials: neither key is `user` or `token`) persists the
record `f ++ [(kx, vx)] ++ [(ky, vy)]`, whose lookups contain both
updates and whose `token` field is the original credential unchanged;
both calls return the merged session, not the no-session sentinel.
Holds for both variants of the pair (getCurrentUser, updateUserProfile). -/
theorem updateUserProfile_merge (base : Store) (f : List (String × JVal))
    (kx ky : String) (vx vy : JVal)
    (hf : (getLast f "user").truthy = false)
    (hxu : kx ≠ "user") (hxt : kx ≠ "token")
    (hyu : ky ≠ "user") (hyt : ky ≠ "token") (hxy : kx ≠ ky) :
    (updateUserProfileV1 { base with user := some (.json (.obj f)) } [(kx, vx)]).1 =
      some (.obj (f ++ [(kx, vx)])) ∧
    updateUserProfileV1
        (updateUserProfileV1 { base with user := some (.json (.obj f)) } [(kx, vx)]).2
        [(ky, vy)] =
      (some (.obj (f ++ [(kx, vx)] ++ [(ky, vy)])),
       { base with user := some (.json (.obj (f ++ [(kx, vx)] ++ [(ky, vy)]))) }) ∧
    updateUserProfileV2
        (updateUserProfileV2 { base with user := some (.json (.obj f)) } [(kx, vx)]).2
        [(ky, vy)] =
      (some (.obj (f ++ [(kx, vx)] ++ [(ky, vy)])),
       { base with user := some (.json (.obj (f ++ [(kx, vx)] ++ [(ky, vy)]))) }) ∧
    getLast (f ++ [(kx, vx)] ++ [(ky, vy)]) kx = vx ∧
    getLast (f ++ [(kx, vx)] ++ [(ky, vy)]) ky = vy ∧
    getLast (f ++ [(kx, vx)] ++ [(ky, vy)]) "token" = getLast f "token" := by
  have load1 : getCurrentUserV1 { base with user := some (.json (.obj f)) } =
      (some (.obj f), { base with user := some (.json (.obj f)) }) := by
    simp [getCurrentUserV1, JVal.getField, hf]
  have hu1 : getLast (f ++ [(kx, vx)]) "user" = getLast f "user" :=
    getLast_snoc_ne f "user" kx vx hxu
  have load2 : getCurrentUserV1
      { base with user := some (.json (.obj (f ++ [(kx, vx)]))) } =
      (some (.obj (f ++ [(kx, vx)])),
       { base with user := some (.json (.obj (f ++ [(kx, vx)]))) }) := by
    simp [getCurrentUserV1, JVal.getField, hu1, hf]
  refine ⟨?_, ?_, ?_, ?_, ?_, ?_⟩
  · simp [updateUserProfileV1, load1, spreadFields]
  · simp [updateUserProfileV1, load1, load2, spreadFields]
  · simp [updateUserProfileV2, getCurrentUserV2, spreadFields]
  · rw [getLast_snoc_ne _ _ _ _ (Ne.symm hxy)]
    exact getLast_snoc_eq f kx vx
  · exact getLast_snoc_eq _ ky vy
  · rw [getLast_snoc_ne _ _ _ _ hyt]
    exact getLast_snoc_ne f _ kx vx hxt

/-- C5 witness: profile `{name: "A", token: "tk"}` updated with
`{x: "1"}` then `{y: "2"}`. -/
theorem updateUserProfile_merge_witness :
    (updateUserProfileV1 ⟨some (.json (.obj [("name", .str "A"),
        ("token", .str "tk")])), none, none, none, none⟩ [("x", .str "1")]).1 =
      some (.obj [("name", .str "A"), ("token", .str "tk"), ("x", .str "1")]) ∧
    updateUserProfileV1
        (updateUserProfileV1 ⟨some (.json (.obj [("name", .str "A"),
          ("token", .str "tk")])), none, none, none, none⟩ [("x", .str "1")]).2
        [("y", .str "2")] =
      (some (.obj [("name", .str "A"), ("token", .str "tk"), ("x", .str "1"),
         ("y", .str "2")]),
       ⟨some (.json (.obj [("name", .str "A"), ("token", .str "tk"),
          ("x", .str "1"), ("y", .str "2")])), none, none, none, none⟩) ∧
    updateUserProfileV2
        (updateUserProfileV2 ⟨some (.json (.obj [("name", .str "A"),
          ("token", .str "tk")])), none, none, none, none⟩ [("x", .str "1")]).2
        [("y", .str "2")] =
      (some (.obj [("name", .str "A"), ("token", .str "tk"), ("x", .str "1"),
         ("y", .str "2")]),
       ⟨some (.json (.obj [("name", .str "A"), ("token", .str "tk"),
          ("x", .str "1"), ("y", .str "2")])), none, none, none, none⟩) ∧
    getLast [("name", .str "A"), ("token", .str "tk"), ("x", .str "1"),
      ("y", .str "2")] "x" = .str "1" ∧
    getLast [("name", .str "A"), ("token", .str "tk"), ("x", .str "1"),
      ("y", .str "2")] "y" = .str "2" ∧
    getLast [("name", .str "A"), ("token", .str "tk"), ("x", .str "1"),
      ("y", .str "2")] "token" =
      getLast [("name", .str "A"), ("token", .str "tk")] "token" :=
  updateUserProfile_merge ⟨none, none, none, none, none⟩
    [("name", .str "A"), ("token", .str "tk")] "x" "y" (.str "1") (.str "2")
    (by decide) (by decide) (by decide) (by decide) (by decide) (by decide)

/-- C6: on an unparseable stored session value, both variants of
`getCurrentUser` remove the corrupt `solosafe_user` entry (leaving every
other key untouched) and return the no-session sentinel `null`.  Both
functions are total in this embedding — the `JSON.parse` failure is the
`garbage` branch, so no stored value makes the loader throw to its
caller. -/
theorem getCurrentUser_corrupt (s : Store) (h : s.user = some .garbage) :
    getCurrentUserV1 s = (none, { s with user := none }) ∧
    getCurrentUserV2 s = (none, { s with user := none }) := by
  obtain ⟨u, tok, tr, ts, dm⟩ := s
  cases h
  exact ⟨rfl, rfl⟩

/-- C6 witness: a concrete corrupt entry is cleared by both loaders. -/
theorem getCurrentUser_corrupt_witness :
    getCurrentUserV1 ⟨some .garbage, some "g", none, none, some "true"⟩ =
      (none, ⟨none, some "g", none, none, some "true"⟩) ∧
    getCurrentUserV2 ⟨some .garbage, some "g", none, none, some "true"⟩ =
      (none, ⟨none, some "g", none, none, some "true"⟩) :=
  getCurrentUser_corrupt ⟨some .garbage, some "g", none, none, some "true"⟩ rfl

/-- C7 counterexample: starting from a storage state where every key is
populated, `logout` (in both variants) leaves the dark-mode preference
flag in place — the claim that the dark-mode flag is cleared on logout
with the other keys is false on the code. -/
theorem logout_darkMode_cex :
    ((logoutV1 ⟨some (.json (.obj [("token", .str "tk")])), some "g",
        some (.json (.arr [])), some (.json (.obj [])), some "true"⟩).1.darkMode =
      some "true") ∧
    ((logoutV2 ⟨some (.json (.obj [("token", .str "tk")])), some "g",
        some (.json (.arr [])), some (.json (.obj [])), some "true"⟩).1.darkMode =
      some "true") ∧
    (some "true" ≠ (none : Option String)) := by
  exact ⟨rfl, rfl, by simp⟩

/-- C7 (amended): for every starting storage state, logout clears the
session record, the cached trip list, and the in-progress signup draft
together (the token variant also clears the provisional OAuth token;
the cookie variant does not use that key), and schedules a redirect to
the index view — but the dark-mode preference flag is left unchanged,
not cleared. -/
theorem logout_clears (s : Store) :
    (logoutV1 s).1.user = none ∧ (logoutV1 s).1.token = none ∧
    (logoutV1 s).1.trips = none ∧ (logoutV1 s).1.tempSignup = none ∧
    (logoutV1 s).1.darkMode = s.darkMode ∧ (logoutV1 s).2.1 = ["index.html"] ∧
    (logoutV2 s).1.user = none ∧ (logoutV2 s).1.token = s.token ∧
    (logoutV2 s).1.trips = none ∧ (logoutV2 s).1.tempSignup = none ∧
    (logoutV2 s).1.darkMode = s.darkMode ∧ (logoutV2 s).2.1 = ["index.html"] :=
  ⟨rfl, rfl, rfl, rfl, rfl, rfl, rfl, rfl, rfl, rfl, rfl, rfl⟩

/-- C8 counterexample: `fetchUserProfile` obtains its bearer token via
`getAuthToken`, which prefers the token of an already-stored
`solosafe_user` record over the freshly arrived OAuth parameter.  With a
stale session `{token: "T0"}` in storage and a callback carrying
`?token=T`, the successful exchange stores the profile with credential
`"T0"`, not `"T"` — refuting "the stored session contains the fetched
profile merged with credential T" for every callback. -/
theorem handleGoogleCallback_staleToken_cex :
    (handleGoogleCallback ⟨"app", [("token", "T")]⟩
        ⟨some (.json (.obj [("token", .str "T0")])), none, none, none, none⟩
        (.ok ⟨200, .obj [("name", .str "N")]⟩)).store.user =
      some (.json (.obj [("name", .str "N"), ("token", .str "T0")])) ∧
    JVal.str "T0" ≠ JVal.str "T" := by
  constructor
  · rfl
  · simp

/-- C8 (amended): for every OAuth callback carrying a non-empty token
query parameter `T`, if no regular-login session record is present in
storage and the profile fetch succeeds, then afterwards the stored
session is the fetched profile merged with credential `T`, no
provisional `solosafe_token` entry remains, the `token` parameter is
gone from the visible URL (stripped via `history.replaceState`, without
a reload — no navigation is scheduled), and the callback reports
success.  When a regular-login record with a truthy token pre-exists,
the session is stored with that token instead of `T`. -/
theorem handleGoogleCallback_success (base : Store) (path T : String)
    (q : List (String × String)) (resp : Response)
    (hUser : base.user = none)
    (hT : Url.getParam ⟨path, q⟩ "token" = some T)
    (hTne : T ≠ "") (hOk : resp.isOk = true) :
    handleGoogleCallback ⟨path, q⟩ base (.ok resp) =
      ⟨true,
       { base with
           user := some (.json (.obj (spreadFields resp.body ++ [("token", .str T)]))),
           token := none },
       ⟨path, []⟩, []⟩ := by
  have hTok : getAuthToken { base with token := some T } = some (.str T) := by
    simp [getAuthToken, hUser, hTne]
  simp [handleGoogleCallback, hT, hTne, fetchUserProfile, hTok, hOk]

/-- C8 witness: empty prior storage, callback `?token=T`, profile
`{name: "N"}` fetched with status 200. -/
theorem handleGoogleCallback_success_witness :
    handleGoogleCallback ⟨"app", [("token", "T")]⟩ ⟨none, none, none, none, none⟩
        (.ok ⟨200, .obj [("name", .str "N")]⟩) =
      ⟨true,
       ⟨some (.json (.obj [("name", .str "N"), ("token", .str "T")])),
        none, none, none, none⟩,
       ⟨"app", []⟩, []⟩ :=
  handleGoogleCallback_success ⟨none, none, none, none, none⟩ "app" "T"
    [("token", "T")] ⟨200, .obj [("name", .str "N")]⟩ rfl rfl (by decide) rfl

/-- C9: when location acquisition fails (the location oracle rejects),
check-in and SOS still proceed: provided a credential is retrievable
(the request goes out at all) and the server accepts, the request is
issued with a `null` location in its body and the operation reaches its
success path, with storage untouched and no redirect scheduled. -/
theorem checkIn_sos_nullLocation (s : Store) (ts tripId : String)
    (resp : Response) (hTok : (getAuthToken s).isSome = true)
    (hOk : resp.isOk = true) :
    checkIn s (.error ()) ts (.ok resp) =
      ⟨some (.obj [("location", .null), ("timestamp", .str ts)]), true, s, []⟩ ∧
    triggerSOS s tripId (.error ()) ts (.ok resp) =
      ⟨some (.obj [("tripId", .str tripId), ("location", .null),
         ("timestamp", .str ts)]), true, s, []⟩ := by
  have h401 : resp.status ≠ 401 := by
    intro e
    rw [Response.isOk, e] at hOk
    simp at hOk
  match hg : getAuthToken s with
  | none => simp [hg] at hTok
  | some tok =>
    constructor
    · simp [checkIn, authenticatedFetchV1, hg, h401, locBody, Except.toOption, hOk]
    · simp [triggerSOS, authenticatedFetchV1, hg, h401, locBody, Except.toOption, hOk]

/-- C9 witness: credentialed store, failed location, 200 response. -/
theorem checkIn_sos_nullLocation_witness :
    checkIn ⟨none, some "g", none, none, none⟩ (.error ()) "now" (.ok ⟨200, .null⟩) =
      ⟨some (.obj [("location", .null), ("timestamp", .str "now")]), true,
       ⟨none, some "g", none, none, none⟩, []⟩ ∧
    triggerSOS ⟨none, some "g", none, none, none⟩ "trip1" (.error ()) "now"
        (.ok ⟨200, .null⟩) =
      ⟨some (.obj [("tripId", .str "trip1"), ("location", .null),
         ("timestamp", .str "now")]), true,
       ⟨none, some "g", none, none, none⟩, []⟩ :=
  checkIn_sos_nullLocation ⟨none, some "g", none, none, none⟩ "now" "trip1"
    ⟨200, .null⟩ (by decide) rfl

/-- C10: both session loaders and the credential lookup treat the
literal stored strings `"undefined"` and `"null"` exactly like an
absent `solosafe_user` entry: the loaders return the no-session
sentinel `null` with storage untouched (no clearing, in contrast to the
unparseable case, which is cleared), and `getAuthToken` behaves
identically to the absent-entry case (falling through to the Google
token without parsing). -/
theorem literal_sentinels_as_absent (s : Store) :
    getCurrentUserV1 { s with user := some .litUndefined } =
      (none, { s with user := some .litUndefined }) ∧
    getCurrentUserV1 { s with user := some .litNull } =
      (none, { s with user := some .litNull }) ∧
    getCurrentUserV2 { s with user := some .litUndefined } =
      (none, { s with user := some .litUndefined }) ∧
    getCurrentUserV2 { s with user := some .litNull } =
      (none, { s with user := some .litNull }) ∧
    getAuthToken { s with user := some .litUndefined } =
      getAuthToken { s with user := none } ∧
    getAuthToken { s with user := some .litNull } =
      getAuthToken { s with user := none } ∧
    getCurrentUserV1 { s with user := some .garbage } =
      (none, { s with user := none }) :=
  ⟨rfl, rfl, rfl, rfl, rfl, rfl, rfl⟩

end SoloSafe
